import Mathlib

/-!
Verification development for the OffiStation storefront scripts.

The repository ships two variants of the same cart module:
* `script1.js` — the older variant (no voucher system), embedded below in
  namespace `OffiStation.Script1`;
* the script embedded in `GOOGLE_OAUTH_SETUP.md` — the current variant with
  the voucher/discount system, auth gating and the `shipping`/`discount`
  totals fields, embedded in namespace `OffiStation`.

JavaScript numbers are modelled as rationals (`ℚ`) and quantities as `Int`
(every quantity the code produces comes from an integer literal, `parseInt`,
or a sum of those).  Browser `localStorage` is modelled as an explicit
`Store` record passed through the handlers.
-/

namespace OffiStation

/-- The whitespace test used by the models of JS `String.prototype.trim` and
`parseInt`: tab 9, LF 10, VT 11, FF 12, CR 13 and space 32 (the ASCII
whitespace characters). -/
def isJsWs (c : Char) : Bool :=
  c.toNat == 32 || c.toNat == 9 || c.toNat == 10 ||
  c.toNat == 13 || c.toNat == 11 || c.toNat == 12

/-- Model of JS `String.prototype.toUpperCase` on a single character,
restricted to the ASCII range (all strings the scripts compare are ASCII):
codes 97–122 are the lowercase letters, 32 below their uppercase forms. -/
def upperChar (c : Char) : Char :=
  if 97 ≤ c.toNat ∧ c.toNat ≤ 122 then Char.ofNat (c.toNat - 32) else c

/-- Model of JS `String.prototype.toUpperCase` (ASCII range). -/
def jsToUpper (s : String) : String :=
  ⟨s.data.map upperChar⟩

/-- `trim` on a character list: drop leading and trailing whitespace. -/
def jsTrimList (l : List Char) : List Char :=
  (((l.dropWhile isJsWs).reverse.dropWhile isJsWs)).reverse

/-- Model of JS `String.prototype.trim`. -/
def jsTrim (s : String) : String :=
  ⟨jsTrimList s.data⟩

/-- Digits-to-number accumulator used by the `parseInt` model. -/
def digitsToNat (ds : List Char) : Nat :=
  ds.foldl (fun n c => 10 * n + (c.toNat - 48)) 0

/-- Model of JS `parseInt(s, 10)`: skip leading whitespace, read an optional
sign and a non-empty digit prefix; `none` models the `NaN` result. -/
def jsParseInt (s : String) : Option Int :=
  match s.data.dropWhile isJsWs with
  | [] => none
  | c :: rest =>
    let signed : Int × List Char :=
      if c = '-' then (-1, rest) else if c = '+' then (1, rest) else (1, c :: rest)
    let digs := signed.2.takeWhile Char.isDigit
    if digs = [] then none else some (signed.1 * (digitsToNat digs : Int))

-- ================= URI normalization (from the markdown-embedded script) ====

/-- Hex value of a character, `none` if it is not a hex digit. -/
def hexVal (c : Char) : Option Nat :=
  if '0' ≤ c ∧ c ≤ '9' then some (c.toNat - 48)
  else if 'A' ≤ c ∧ c ≤ 'F' then some (c.toNat - 55)
  else if 'a' ≤ c ∧ c ≤ 'f' then some (c.toNat - 87)
  else none

/-- Upper-case hex digit for a value `< 16` (as `encodeURI` produces). -/
def uriHexDigit (n : Nat) : Char :=
  if n < 10 then Char.ofNat (48 + n) else Char.ofNat (55 + n)

/-- UTF-8 byte sequence of a code point (used by the `encodeURI` model). -/
def utf8Bytes (n : Nat) : List Nat :=
  if n < 128 then [n]
  else if n < 2048 then [192 + n / 64, 128 + n % 64]
  else if n < 65536 then [224 + n / 4096, 128 + (n / 64) % 64, 128 + n % 64]
  else [240 + n / 262144, 128 + (n / 4096) % 64, 128 + (n / 64) % 64, 128 + n % 64]

/-- Characters `encodeURI` leaves unescaped: alphanumerics, the unreserved
marks, the URI reserved set and `#` and `%`.  (`%` is kept so that an already
percent-encoded triple survives the encode pass, matching how
`encodeURI ∘ decodeURI` behaves on round-tripped input.) -/
def isUriKeep (c : Char) : Bool :=
  c.isAlphanum ||
  c == '-' || c == '_' || c == '.' || c == '!' || c == '~' || c == '*' ||
  c == Char.ofNat 39 || c == '(' || c == ')' ||
  c == ';' || c == '/' || c == '?' || c == ':' || c == '@' || c == '&' ||
  c == '=' || c == '+' || c == '$' || c == ',' || c == '#' || c == '%'

/-- Bytes that `decodeURI` refuses to decode (the reserved set and `#`). -/
def isUriReservedByte (n : Nat) : Bool :=
  n == 35 || n == 36 || n == 38 || n == 43 || n == 44 || n == 47 ||
  n == 58 || n == 59 || n == 61 || n == 63 || n == 64

/-- Model of JS `decodeURI` on ASCII input, as a list scan.  `none` models a
thrown `URIError` (malformed percent escape). -/
def decodeURIList : List Char → Option (List Char)
  | [] => some []
  | c :: rest =>
    if c = '%' then
      match rest with
      | h1 :: h2 :: rest2 =>
        match hexVal h1, hexVal h2 with
        | some v1, some v2 =>
          let n := 16 * v1 + v2
          if isUriReservedByte n then
            (decodeURIList rest2).map (fun l => '%' :: h1 :: h2 :: l)
          else
            (decodeURIList rest2).map (fun l => Char.ofNat n :: l)
        | _, _ => none
      | _ => none
    else
      (decodeURIList rest).map (fun l => c :: l)

/-- Model of JS `decodeURI` (ASCII-faithful: multi-byte UTF-8 percent
sequences are decoded bytewise, which agrees with the browser on the ASCII
inputs this repository stores). -/
def jsDecodeURI (s : String) : Option String :=
  (decodeURIList s.data).map (fun l => ⟨l⟩)

/-- Model of JS `encodeURI` on a single character. -/
def encodeURIChar (c : Char) : List Char :=
  if isUriKeep c then [c]
  else (utf8Bytes c.toNat).flatMap (fun b => ['%', uriHexDigit (b / 16), uriHexDigit (b % 16)])

/-- Model of JS `encodeURI`. -/
def jsEncodeURI (s : String) : String :=
  ⟨s.data.flatMap encodeURIChar⟩

/-- `normalizeImageUrl` from the markdown-embedded script:
`encodeURI(decodeURI(url))`, falling back to `encodeURI(url)` when the decode
throws.  (The empty string is falsy, so it is returned unchanged.) -/
def normalizeImageUrl (url : String) : String :=
  if url = "" then url
  else
    match jsDecodeURI url with
    | some d => jsEncodeURI d
    | none => jsEncodeURI url

-- ================= Cart data model and operations ===========================

/-- A cart line item, as stored under the `cartItems` key. -/
structure CartItem where
  id : String
  name : String
  price : ℚ
  image : String
  quantity : Int
deriving Repr, DecidableEq

/-- `cart.reduce((s, it) => s + it.price * it.quantity, 0)`. -/
def cartSubtotal (cart : List CartItem) : ℚ :=
  cart.foldl (fun s it => s + it.price * (it.quantity : ℚ)) 0

/-- `cart.reduce((sum, item) => sum + item.quantity, 0)`. -/
def cartItemCount (cart : List CartItem) : Int :=
  cart.foldl (fun s it => s + it.quantity) 0

/-- `cart.find(i => i.id === id)` succeeds. -/
def existsId : List CartItem → String → Bool
  | [], _ => false
  | i :: rest, id => if i.id = id then true else existsId rest id

/-- In-place `existing.quantity += newItem.quantity` on the first item whose
id matches (the one `cart.find` returns). -/
def bumpFirst : List CartItem → CartItem → List CartItem
  | [], _ => []
  | i :: rest, ni =>
    if i.id = ni.id then { i with quantity := i.quantity + ni.quantity } :: rest
    else i :: bumpFirst rest ni

/-- `addItemToCart` from the markdown-embedded script: increment the quantity
of an existing entry, or normalize the image URL and push. -/
def addItemToCart (cart : List CartItem) (newItem : CartItem) : List CartItem :=
  if existsId cart newItem.id then bumpFirst cart newItem
  else cart ++ [{ newItem with image := normalizeImageUrl newItem.image }]

/-- `updateQuantity(id, quantity)`: sets the quantity of the first item whose
id matches; silently a no-op when the id is absent. -/
def updateQuantity : List CartItem → String → Int → List CartItem
  | [], _, _ => []
  | i :: rest, id, q =>
    if i.id = id then { i with quantity := q } :: rest
    else i :: updateQuantity rest id q

/-- `removeItem(id)`: `cart.filter(i => i.id !== id)`. -/
def removeItem : List CartItem → String → List CartItem
  | [], _ => []
  | i :: rest, id =>
    if i.id = id then removeItem rest id else i :: removeItem rest id

/-- The delegated `change` handler on the cart list in the markdown-embedded
script: `const qty = parseInt(target.value, 10) || 1; updateQuantity(id, qty)`.
A `NaN` or `0` parse is coerced to `1`; any other parse (negatives included)
is stored as-is. -/
def cartQtyChangeMd (cart : List CartItem) (id raw : String) : List CartItem :=
  updateQuantity cart id
    (match jsParseInt raw with
     | none => 1
     | some n => if n = 0 then 1 else n)

-- ================= Voucher system (markdown-embedded script) ================

/-- A voucher record from the hardcoded `VOUCHERS` table.  `vtype` mirrors the
JS string-valued `type` field; `amount` is only present (and only read) for
the `'amount'` voucher and `percent` only for the `'percent'` voucher, so the
absent field is modelled as `0`. -/
structure Voucher where
  code : String
  vtype : String
  amount : ℚ
  percent : ℚ
  minSpend : ℚ
  description : String
deriving Repr, DecidableEq

/-- `VOUCHERS['OFFI2025']`. -/
def offi2025 : Voucher :=
  { code := "OFFI2025", vtype := "amount", amount := 100, percent := 0,
    minSpend := 500, description := "100 OFF min. spend 500" }

/-- `VOUCHERS['BULK10']`. -/
def bulk10 : Voucher :=
  { code := "BULK10", vtype := "percent", amount := 0, percent := 10,
    minSpend := 2000, description := "10 percent OFF orders above 2000" }

/-- `getVoucherByCode(code)`: falsy (empty) codes resolve to `null`; otherwise
the code is trimmed, upper-cased and looked up in the two-entry table. -/
def getVoucherByCode (code : String) : Option Voucher :=
  if code = "" then none
  else if jsToUpper (jsTrim code) = "OFFI2025" then some offi2025
  else if jsToUpper (jsTrim code) = "BULK10" then some bulk10
  else none

/-- `calculateVoucherDiscount(cart, code)` from the markdown-embedded
script. -/
def calculateVoucherDiscount (cart : List CartItem) (code : String) : ℚ :=
  match getVoucherByCode code with
  | none => 0
  | some voucher =>
    let subtotal := cartSubtotal cart
    if subtotal ≤ 0 then 0
    else if voucher.minSpend ≠ 0 ∧ subtotal < voucher.minSpend then 0
    else if voucher.vtype = "amount" then min voucher.amount subtotal
    else if voucher.vtype = "percent" then subtotal * (voucher.percent / 100)
    else 0

/-- `getActiveVoucherCode()`: `localStorage.getItem('os_active_voucher') ||
null` — an absent key and a stored empty string both give `null`. -/
def getActiveVoucherCode (slot : Option String) : Option String :=
  match slot with
  | none => none
  | some s => if s = "" then none else some s

/-- `SHIPPING_FEE`. -/
def SHIPPING_FEE : ℚ := 150

/-- The record `calculateCartTotals` returns. -/
structure Totals where
  subtotal : ℚ
  discount : ℚ
  shipping : ℚ
  total : ℚ
  itemCount : Int
  appliedVoucher : Option String
deriving Repr, DecidableEq

/-- `calculateCartTotals(cart)` from the markdown-embedded script.  The one
read of browser state, `getActiveVoucherCode()`, is passed in explicitly as
the raw `os_active_voucher` slot, making the function a pure function of
`(cart, slot)`. -/
def calculateCartTotals (cart : List CartItem) (slot : Option String) : Totals :=
  let subtotal := cart.foldl (fun s it => s + it.price * (it.quantity : ℚ)) 0
  let itemCount := cart.foldl (fun s it => s + it.quantity) 0
  let appliedCode := getActiveVoucherCode slot
  let discount :=
    match appliedCode with
    | some c => calculateVoucherDiscount cart c
    | none => 0
  let shipping := if subtotal > 0 then SHIPPING_FEE else 0
  let total := max 0 (subtotal - discount) + shipping
  { subtotal := subtotal, discount := discount, shipping := shipping,
    total := total, itemCount := itemCount, appliedVoucher := appliedCode }

-- ================= localStorage state and event handlers ====================

/-- The browser `localStorage` keys the handlers touch, with the cart slot
abstracted to its parsed form. -/
structure Store where
  cartItems : List CartItem
  activeVoucher : Option String
  currentUser : Option String
  savedUsername : Option String
  pendingAdd : Option CartItem
deriving Repr, DecidableEq

/-- `isLoggedIn()`: `!!localStorage.getItem('os_current_user')` — truthy
exactly when the key holds a non-empty string. -/
def isLoggedIn (s : Store) : Bool :=
  match s.currentUser with
  | none => false
  | some u => !(u == "")

/-- `setActiveVoucherCode(code)`: store a non-empty code, remove the key for
a falsy one. -/
def setActiveVoucherCode (s : Store) (code : String) : Store :=
  if code = "" then { s with activeVoucher := none }
  else { s with activeVoucher := some code }

/-- `clearActiveVoucher()`. -/
def clearActiveVoucher (s : Store) : Store :=
  { s with activeVoucher := none }

/-- The Add-to-Cart click handler from the markdown-embedded catalog setup:
builds `{ id, name, price, image, quantity: 1 }`; when logged out it saves the
item as `os_pending_add` and redirects, otherwise it adds to the cart. -/
def catalogAddToCartClick (s : Store) (id name image : String) (price : ℚ) : Store :=
  let item : CartItem := { id := id, name := name, price := price, image := image, quantity := 1 }
  if isLoggedIn s then { s with cartItems := addItemToCart s.cartItems item }
  else { s with pendingAdd := some item }

/-- The delegated cart-list `change` handler, lifted to the store. -/
def cartListChangeHandler (s : Store) (id raw : String) : Store :=
  { s with cartItems := cartQtyChangeMd s.cartItems id raw }

/-- The cart-list remove-button handler, lifted to the store. -/
def cartListRemoveClick (s : Store) (id : String) : Store :=
  { s with cartItems := removeItem s.cartItems id }

/-- The `apply-voucher-btn` click handler (both attached copies have the same
logic): trim and upper-case the input; reject an empty input, an unknown code,
and a code whose computed discount for the current cart is not positive; only
then store the code as active. -/
def applyVoucherBtnClick (s : Store) (inputValue : String) : Store :=
  let code := jsToUpper (jsTrim inputValue)
  if code = "" then s
  else
    match getVoucherByCode code with
    | none => s
    | some _ =>
      if calculateVoucherDiscount s.cartItems code ≤ 0 then s
      else setActiveVoucherCode s code

/-- The checkout form fields the validator reads. -/
structure CheckoutForm where
  fullName : String
  email : String
  phone : String
  address : String
  city : String
  paymentMethod : Option String
deriving Repr, DecidableEq

/-- `validateCheckoutForm(form)`: every text field non-blank after trimming,
the email contains `@`, and a payment method is selected. -/
def validateCheckoutForm (f : CheckoutForm) : Bool :=
  !(jsTrim f.fullName == "") && !(jsTrim f.email == "") && !(jsTrim f.phone == "") &&
  !(jsTrim f.address == "") && !(jsTrim f.city == "") &&
  f.email.data.contains '@' && f.paymentMethod.isSome

/-- `handleCheckoutForm(event)` from the markdown-embedded script, as its
effect on the store plus an order-placed flag: bail out when logged out or
when validation fails; on success remove only the `cartItems` key. -/
def handleCheckoutForm (s : Store) (form : CheckoutForm) : Store × Bool :=
  if !(isLoggedIn s) then (s, false)
  else if !(validateCheckoutForm form) then (s, false)
  else ({ s with cartItems := [] }, true)

/-- `doLogout()`: removes `os_current_user` and `os_saved_username`, saves an
empty cart, and removes `os_active_voucher`. -/
def doLogout (s : Store) : Store :=
  { s with currentUser := none, savedUsername := none,
           cartItems := [], activeVoucher := none }

end OffiStation

namespace OffiStation.Script1

/-- `addItemToCart` from `script1.js`: same as the markdown variant but the
new item is pushed unchanged (no image normalization). -/
def addItemToCart (cart : List CartItem) (newItem : CartItem) : List CartItem :=
  if existsId cart newItem.id then bumpFirst cart newItem
  else cart ++ [newItem]

/-- `calculateCartTotals` from `script1.js`: `(subtotal, total, itemCount)`
with `total = subtotal > 0 ? subtotal + SHIPPING_FEE : 0` and no voucher
support. -/
def calculateCartTotals (cart : List CartItem) : ℚ × ℚ × Int :=
  let subtotal := cart.foldl (fun s it => s + it.price * (it.quantity : ℚ)) 0
  let total := if subtotal > 0 then subtotal + 150 else 0
  let itemCount := cart.foldl (fun s it => s + it.quantity) 0
  (subtotal, total, itemCount)

/-- The quantity-input `change` handler from `script1.js`:
`const newQty = parseInt(value); if (newQty > 0) updateQuantity(id, newQty);
else removeItem(id)` (a `NaN` comparison is false, so `NaN` also removes). -/
def cartQtyChange (cart : List CartItem) (id raw : String) : List CartItem :=
  match jsParseInt raw with
  | some n => if n > 0 then updateQuantity cart id n else removeItem cart id
  | none => removeItem cart id

end OffiStation.Script1

namespace OffiStation

-- ================= JSON.parse model and getCartItems ========================

/-- A parsed JSON value (`JSON.parse` result). -/
inductive JsVal where
  | jnull
  | jbool (b : Bool)
  | jnum (q : ℚ)
  | jstr (s : String)
  | jarr (elems : List JsVal)
  | jobj (fields : List (String × JsVal))
deriving Repr

/-- JS truthiness of a parsed JSON value (`NaN` cannot be produced by
`JSON.parse`, so a number is falsy exactly when it is `0`). -/
def jsTruthy : JsVal → Bool
  | .jnull => false
  | .jbool b => b
  | .jnum q => !(q == 0)
  | .jstr s => !(s == "")
  | .jarr _ => true
  | .jobj _ => true

/-- The opening curly brace character. -/
def curlyOpen : Char := Char.ofNat 123

/-- The closing curly brace character. -/
def curlyClose : Char := Char.ofNat 125

/-- Skip JSON insignificant whitespace. -/
def skipJsonWs (cs : List Char) : List Char :=
  cs.dropWhile fun c => c == ' ' || c == '\t' || c == '\n' || c == '\r'

/-- Translate a JSON string escape character; `\u` escapes are outside the
modelled subset (the cart serializer never produces them). -/
def escChar (e : Char) : Option Char :=
  if e = '"' then some '"'
  else if e = '\\' then some '\\'
  else if e = '/' then some '/'
  else if e = 'n' then some '\n'
  else if e = 't' then some '\t'
  else if e = 'r' then some '\r'
  else if e = 'b' then some (Char.ofNat 8)
  else if e = 'f' then some (Char.ofNat 12)
  else none

/-- Parse the body of a JSON string after the opening quote. -/
def parseStringBody : List Char → List Char → Option (String × List Char)
  | [], _ => none
  | c :: rest, acc =>
    if c = '"' then some (⟨acc.reverse⟩, rest)
    else if c = '\\' then
      match rest with
      | [] => none
      | e :: rest2 =>
        match escChar e with
        | some ch => parseStringBody rest2 (ch :: acc)
        | none => none
    else parseStringBody rest (c :: acc)

/-- Parse a JSON number (integer part and optional fraction; the exponent
form is outside the modelled subset). -/
def parseNumber (cs : List Char) : Option (ℚ × List Char) :=
  let signed : Bool × List Char :=
    match cs with
    | c :: rest => if c = '-' then (true, rest) else (false, cs)
    | [] => (false, cs)
  let ds := signed.2.takeWhile Char.isDigit
  let rest1 := signed.2.dropWhile Char.isDigit
  if ds = [] then none
  else
    let ip : ℚ := (digitsToNat ds : ℚ)
    let withFrac : Option (ℚ × List Char) :=
      match rest1 with
      | c :: rest2 =>
        if c = '.' then
          let fs := rest2.takeWhile Char.isDigit
          let rest3 := rest2.dropWhile Char.isDigit
          if fs = [] then none
          else some (ip + (digitsToNat fs : ℚ) / ((10 : ℚ) ^ fs.length), rest3)
        else some (ip, rest1)
      | [] => some (ip, rest1)
    match withFrac with
    | some (q, r) => some (if signed.1 then -q else q, r)
    | none => none

mutual

/-- Fuel-indexed recursive-descent parser for a JSON value. -/
def parseJsonVal : Nat → List Char → Option (JsVal × List Char)
  | 0, _ => none
  | Nat.succ fuel, cs =>
    let cs := skipJsonWs cs
    if cs.take 4 = "null".data then some (.jnull, cs.drop 4)
    else if cs.take 4 = "true".data then some (.jbool true, cs.drop 4)
    else if cs.take 5 = "false".data then some (.jbool false, cs.drop 5)
    else
      match cs with
      | [] => none
      | c :: rest =>
        if c = '"' then
          match parseStringBody rest [] with
          | some (s, r) => some (.jstr s, r)
          | none => none
        else if c = '[' then
          match skipJsonWs rest with
          | ']' :: r2 => some (.jarr [], r2)
          | other => parseJsonElems fuel other []
        else if c = curlyOpen then
          match skipJsonWs rest with
          | d :: r2 =>
            if d = curlyClose then some (.jobj [], r2)
            else parseJsonFields fuel (d :: r2) []
          | [] => none
        else
          match parseNumber (c :: rest) with
          | some (q, r) => some (.jnum q, r)
          | none => none

/-- Parse the remaining elements of a JSON array (after `[`). -/
def parseJsonElems : Nat → List Char → List JsVal → Option (JsVal × List Char)
  | 0, _, _ => none
  | Nat.succ fuel, cs, acc =>
    match parseJsonVal fuel cs with
    | some (v, rest) =>
      match skipJsonWs rest with
      | ',' :: r2 => parseJsonElems fuel r2 (v :: acc)
      | ']' :: r2 => some (.jarr (v :: acc).reverse, r2)
      | _ => none
    | none => none

/-- Parse the remaining fields of a JSON object (after the opening brace). -/
def parseJsonFields : Nat → List Char → List (String × JsVal) →
    Option (JsVal × List Char)
  | 0, _, _ => none
  | Nat.succ fuel, cs, acc =>
    match skipJsonWs cs with
    | q :: rest =>
      if q = '"' then
        match parseStringBody rest [] with
        | some (key, r1) =>
          match skipJsonWs r1 with
          | ':' :: r2 =>
            match parseJsonVal fuel r2 with
            | some (v, r3) =>
              match skipJsonWs r3 with
              | ',' :: r4 => parseJsonFields fuel r4 ((key, v) :: acc)
              | d :: r4 =>
                if d = curlyClose then some (.jobj ((key, v) :: acc).reverse, r4)
                else none
              | [] => none
            | none => none
          | _ => none
        | none => none
      else none
    | [] => none

end

/-- `JSON.parse(s)` model: parse one value and require only whitespace after
it; `none` models a thrown `SyntaxError`. -/
def jsonParse (s : String) : Option JsVal :=
  match parseJsonVal (s.data.length + 2) s.data with
  | some (v, rest) => if skipJsonWs rest = [] then some v else none
  | none => none

/-- `getCartItems()` from both script variants:
`JSON.parse(localStorage.getItem('cartItems')) || []`.  A missing key makes
`JSON.parse` receive `null`, which is coerced to the string `"null"`; there is
no `try`/`catch`, so a malformed stored value propagates the `SyntaxError`
(modelled as `Except.error`) and the page script crashes. -/
def getCartItems (stored : Option String) : Except String JsVal :=
  match jsonParse (stored.getD "null") with
  | some v => .ok (if jsTruthy v then v else .jarr [])
  | none => .error "SyntaxError: JSON.parse"

end OffiStation

namespace OffiStation

-- ================= Spec-shaped definitions (for refinement claims) ==========

/-- Spec wording: `subtotal = Σ price×quantity`. -/
def specSubtotal (cart : List CartItem) : ℚ :=
  (cart.map fun i => i.price * (i.quantity : ℚ)).sum

/-- Spec wording: `itemCount = Σ quantity`. -/
def specItemCount (cart : List CartItem) : Int :=
  (cart.map fun i => i.quantity).sum

/-- Spec wording: `shipping` = the fixed fee if subtotal > 0 else 0. -/
def specShipping (cart : List CartItem) : ℚ :=
  if 0 < specSubtotal cart then SHIPPING_FEE else 0

/-- Spec wording: `discount` is the voucher discount for the active code
(0 when no code is active). -/
def specDiscount (cart : List CartItem) (activeCode : Option String) : ℚ :=
  match activeCode with
  | some c => calculateVoucherDiscount cart c
  | none => 0

/-- Spec wording for the whole `computeTotals(cart, activeCode)` record:
`total = max(0, subtotal − discount) + shipping`. -/
def specTotals (cart : List CartItem) (activeCode : Option String) : Totals :=
  { subtotal := specSubtotal cart,
    discount := specDiscount cart activeCode,
    shipping := specShipping cart,
    total := max 0 (specSubtotal cart - specDiscount cart activeCode) + specShipping cart,
    itemCount := specItemCount cart,
    appliedVoucher := activeCode }

/-- Spec wording for the voucher discount rule: 0 when the code resolves to
no voucher or the subtotal is below the voucher's `minSpend`, otherwise
`min(amount, subtotal)` for an amount voucher and `subtotal × percent/100`
for a percent voucher. -/
def specVoucherDiscount (cart : List CartItem) (code : String) : ℚ :=
  match getVoucherByCode code with
  | none => 0
  | some v =>
    if cartSubtotal cart < v.minSpend then 0
    else if v.vtype = "amount" then min v.amount (cartSubtotal cart)
    else if v.vtype = "percent" then cartSubtotal cart * (v.percent / 100)
    else 0

-- ================= Helper lemmas ============================================

theorem foldl_add_eq_sum {M : Type} [AddCommMonoid M] (f : CartItem → M) :
    ∀ (l : List CartItem) (a : M), l.foldl (fun s it => s + f it) a = a + (l.map f).sum
  | [], a => by simp
  | i :: rest, a => by
    simp only [List.foldl_cons, List.map_cons, List.sum_cons]
    rw [foldl_add_eq_sum f rest (a + f i), add_assoc]

theorem cartSubtotal_eq_spec (cart : List CartItem) :
    cartSubtotal cart = specSubtotal cart := by
  simpa using foldl_add_eq_sum (fun i => i.price * (i.quantity : ℚ)) cart 0

theorem cartItemCount_eq_spec (cart : List CartItem) :
    cartItemCount cart = specItemCount cart := by
  simpa using foldl_add_eq_sum (fun i => i.quantity) cart 0

/-- `getVoucherByCode` only ever produces the two table entries. -/
theorem getVoucherByCode_cases (code : String) :
    getVoucherByCode code = none ∨ getVoucherByCode code = some offi2025 ∨
      getVoucherByCode code = some bulk10 := by
  unfold getVoucherByCode
  by_cases h : code = ""
  · simp [h]
  · by_cases h1 : jsToUpper (jsTrim code) = "OFFI2025"
    · simp [h, h1]
    · by_cases h2 : jsToUpper (jsTrim code) = "BULK10" <;> simp [h, h1, h2]

/-- The discount body of `calculateVoucherDiscount` agrees with the spec
rule for any voucher with a positive `minSpend` (both table entries). -/
theorem discount_branch_eq (cart : List CartItem) (v : Voucher)
    (hpos : 0 < v.minSpend) :
    (if cartSubtotal cart ≤ 0 then 0
     else if v.minSpend ≠ 0 ∧ cartSubtotal cart < v.minSpend then 0
     else if v.vtype = "amount" then min v.amount (cartSubtotal cart)
     else if v.vtype = "percent" then cartSubtotal cart * (v.percent / 100)
     else 0) =
    (if cartSubtotal cart < v.minSpend then 0
     else if v.vtype = "amount" then min v.amount (cartSubtotal cart)
     else if v.vtype = "percent" then cartSubtotal cart * (v.percent / 100)
     else (0 : ℚ)) := by
  rcases lt_or_le (cartSubtotal cart) v.minSpend with hm | hm
  · rw [if_pos hm]
    rcases le_or_lt (cartSubtotal cart) 0 with hs | hs
    · rw [if_pos hs]
    · rw [if_neg (not_le.mpr hs), if_pos ⟨ne_of_gt hpos, hm⟩]
  · rw [if_neg (not_lt.mpr hm),
      if_neg (by push_neg; linarith : ¬ cartSubtotal cart ≤ 0),
      if_neg (fun hc => absurd hc.2 (not_lt.mpr hm))]

end OffiStation

namespace OffiStation

-- ================= Claim theorems ===========================================

/-- C1: `calculateCartTotals` (markdown-embedded script) is a pure function
of the cart and the stored active-voucher slot, returning
`subtotal = Σ price×quantity`, `itemCount = Σ quantity`,
`shipping = 150` iff the subtotal is positive, and
`total = max(0, subtotal − discount) + shipping` with the discount computed
by `calculateVoucherDiscount` for the active code; the `script1.js` variant
returns the same subtotal, item count, and (voucherless) total. -/
theorem claim1_calculateCartTotals_spec :
    (∀ (cart : List CartItem) (slot : Option String),
      calculateCartTotals cart slot = specTotals cart (getActiveVoucherCode slot)) ∧
    (∀ cart : List CartItem,
      Script1.calculateCartTotals cart =
        (specSubtotal cart, max 0 (specSubtotal cart) + specShipping cart,
          specItemCount cart)) := by
  constructor
  · intro cart slot
    unfold calculateCartTotals specTotals specShipping specDiscount
    rw [show cart.foldl (fun s it => s + it.price * (it.quantity : ℚ)) 0 = specSubtotal cart
          from cartSubtotal_eq_spec cart]
    rw [show cart.foldl (fun s it => s + it.quantity) 0 = specItemCount cart
          from cartItemCount_eq_spec cart]
  · intro cart
    unfold Script1.calculateCartTotals specShipping
    rw [show cart.foldl (fun s it => s + it.price * (it.quantity : ℚ)) 0 = specSubtotal cart
          from cartSubtotal_eq_spec cart]
    rw [show cart.foldl (fun s it => s + it.quantity) 0 = specItemCount cart
          from cartItemCount_eq_spec cart]
    rcases lt_trichotomy (0 : ℚ) (specSubtotal cart) with h | h | h
    · simp [h, SHIPPING_FEE, max_eq_right (le_of_lt h)]
    · simp [← h, SHIPPING_FEE]
    · simp [not_lt_of_lt h, SHIPPING_FEE, max_eq_left (le_of_lt h)]

/-- C3: `calculateVoucherDiscount` agrees with the spec rule — 0 for an
unresolvable code or a subtotal below `minSpend`, otherwise
`min(amount, subtotal)` for the amount voucher and `subtotal×percent/100`
for the percent voucher. -/
theorem claim3_calculateVoucherDiscount_spec
    (cart : List CartItem) (code : String) :
    calculateVoucherDiscount cart code = specVoucherDiscount cart code := by
  unfold calculateVoucherDiscount specVoucherDiscount
  rcases getVoucherByCode_cases code with h | h | h <;> rw [h]
  · exact discount_branch_eq cart offi2025 (by norm_num [offi2025])
  · exact discount_branch_eq cart bulk10 (by norm_num [bulk10])

end OffiStation

namespace OffiStation

/-- The discount body never exceeds a non-negative subtotal when the
voucher's percent is between 0 and 100. -/
theorem discount_body_le (cart : List CartItem) (v : Voucher)
    (hp1 : v.percent ≤ 100) (h : 0 ≤ cartSubtotal cart) :
    (if cartSubtotal cart ≤ 0 then 0
     else if v.minSpend ≠ 0 ∧ cartSubtotal cart < v.minSpend then 0
     else if v.vtype = "amount" then min v.amount (cartSubtotal cart)
     else if v.vtype = "percent" then cartSubtotal cart * (v.percent / 100)
     else 0) ≤ cartSubtotal cart := by
  split_ifs with h1 h2 h3 h4
  · exact h
  · exact h
  · exact min_le_right _ _
  · have : v.percent / 100 ≤ 1 := by linarith
    calc cartSubtotal cart * (v.percent / 100) ≤ cartSubtotal cart * 1 := by
          apply mul_le_mul_of_nonneg_left this h
      _ = cartSubtotal cart := mul_one _
  · exact h

/-- For a non-negative subtotal the computed voucher discount never exceeds
the subtotal. -/
theorem discount_le_subtotal (cart : List CartItem) (code : String)
    (h : 0 ≤ cartSubtotal cart) :
    calculateVoucherDiscount cart code ≤ cartSubtotal cart := by
  unfold calculateVoucherDiscount
  rcases getVoucherByCode_cases code with hv | hv | hv <;> rw [hv]
  · exact h
  · exact discount_body_le cart offi2025 (by norm_num [offi2025]) h
  · exact discount_body_le cart bulk10 (by norm_num [bulk10]) h

/-- C6 (amended): for every cart and voucher slot the computed total is
non-negative, and whenever the subtotal is non-negative the discount does not
exceed the subtotal.  (The unamended claim fails on carts with a negative
subtotal, which the delegated quantity handler makes reachable — see the
counterexample.) -/
theorem claim6_amended :
    (∀ (cart : List CartItem) (slot : Option String),
      0 ≤ (calculateCartTotals cart slot).total) ∧
    (∀ (cart : List CartItem) (slot : Option String),
      0 ≤ (calculateCartTotals cart slot).subtotal →
        (calculateCartTotals cart slot).discount ≤
          (calculateCartTotals cart slot).subtotal) := by
  constructor
  · intro cart slot
    show (0 : ℚ) ≤ max 0 _ + _
    apply add_nonneg (le_max_left _ _)
    split_ifs
    · norm_num [SHIPPING_FEE]
    · exact le_refl 0
  · intro cart slot h
    have hs : 0 ≤ cartSubtotal cart := h
    cases hc : getActiveVoucherCode slot with
    | none =>
      simp only [calculateCartTotals, hc]
      exact hs
    | some c =>
      simp only [calculateCartTotals, hc]
      exact discount_le_subtotal cart c hs

/-- Witness for `claim6_amended`. -/
theorem claim6_amended_witness :
    (calculateCartTotals [⟨"A", "Pad", 100, "p.png", 2⟩] (some "OFFI2025")).discount ≤
      (calculateCartTotals [⟨"A", "Pad", 100, "p.png", 2⟩] (some "OFFI2025")).subtotal :=
  claim6_amended.2 [⟨"A", "Pad", 100, "p.png", 2⟩] (some "OFFI2025")
    (by norm_num [calculateCartTotals])

/-- Initial store for the C6 counterexample: a logged-in user, empty cart,
no voucher. -/
def claim6Store0 : Store :=
  { cartItems := [], activeVoucher := none, currentUser := some "user",
    savedUsername := none, pendingAdd := none }

/-- A store reached by: catalog add (price 100), quantity edit to 5
(subtotal 500), successful apply of OFFI2025, then quantity edit to "-1"
through the delegated cart-list handler. -/
def claim6Store : Store :=
  cartListChangeHandler
    (applyVoucherBtnClick
      (cartListChangeHandler
        (catalogAddToCartClick claim6Store0 "A" "Desk Chair" "chair.png" 100)
        "A" "5")
      "OFFI2025")
    "A" "-1"

/-- C6 counterexample: in the reachable state `claim6Store` the voucher
OFFI2025 is active, the subtotal is −100, and the discount (0) exceeds the
subtotal — refuting "the computed discount never exceeds the subtotal" for
reachable (cart, voucher) combinations. -/
theorem claim6_counterexample :
    claim6Store.activeVoucher = some "OFFI2025" ∧
    (calculateCartTotals claim6Store.cartItems claim6Store.activeVoucher).subtotal = -100 ∧
    (calculateCartTotals claim6Store.cartItems claim6Store.activeVoucher).discount = 0 ∧
    (calculateCartTotals claim6Store.cartItems claim6Store.activeVoucher).subtotal <
      (calculateCartTotals claim6Store.cartItems claim6Store.activeVoucher).discount := by
  have hstore : claim6Store =
      { cartItems := [⟨"A", "Desk Chair", 100, "chair.png", -1⟩],
        activeVoucher := some "OFFI2025", currentUser := some "user",
        savedUsername := none, pendingAdd := none } := by
    simp [claim6Store, claim6Store0, cartListChangeHandler, applyVoucherBtnClick,
      catalogAddToCartClick, isLoggedIn, addItemToCart, existsId, bumpFirst,
      normalizeImageUrl, jsDecodeURI, decodeURIList, jsEncodeURI, encodeURIChar,
      isUriKeep, cartQtyChangeMd, jsParseInt, jsToUpper, jsTrim,
      jsTrimList, isJsWs, upperChar, digitsToNat, getVoucherByCode, offi2025,
      calculateVoucherDiscount, cartSubtotal, setActiveVoucherCode]
    norm_num [updateQuantity]
  rw [hstore]
  refine ⟨rfl, ?_, ?_, ?_⟩ <;>
    simp [calculateCartTotals, getActiveVoucherCode, calculateVoucherDiscount,
      getVoucherByCode, offi2025, cartSubtotal, jsToUpper, jsTrim, jsTrimList,
      isJsWs, upperChar]

end OffiStation

namespace OffiStation

/-- Store for the C4 counterexample: logged-in user, cart subtotal 200
(below OFFI2025's 500 minimum spend), no active voucher. -/
def claim4Store : Store :=
  { cartItems := [⟨"A", "Notebook", 100, "n.png", 2⟩], activeVoucher := none,
    currentUser := some "user", savedUsername := none, pendingAdd := none }

/-- C4 counterexample: "OFFI2025" exists in the voucher table, yet applying
it to a cart whose subtotal (200) is below its minimum spend leaves the store
unchanged — the active code is NOT set, refuting "applying a code that exists
in the voucher table stores it as the active code" regardless of
eligibility. -/
theorem claim4_counterexample :
    getVoucherByCode "OFFI2025" = some offi2025 ∧
    cartSubtotal claim4Store.cartItems < offi2025.minSpend ∧
    applyVoucherBtnClick claim4Store "OFFI2025" = claim4Store ∧
    (applyVoucherBtnClick claim4Store "OFFI2025").activeVoucher = none := by
  have h : applyVoucherBtnClick claim4Store "OFFI2025" = claim4Store := by
    simp [claim4Store, applyVoucherBtnClick, jsToUpper, jsTrim, jsTrimList,
      isJsWs, upperChar, getVoucherByCode, offi2025, calculateVoucherDiscount,
      cartSubtotal]
    norm_num
  exact ⟨by decide, by norm_num [claim4Store, cartSubtotal, offi2025], h,
    by rw [h]; rfl⟩

/-- C4 (amended): the apply-voucher click handler DOES validate eligibility
at set-time.  An unknown (or empty) code leaves the store unchanged; a known
code whose computed discount for the current cart is not positive (for
example, subtotal below `minSpend`) is also rejected with the store
unchanged; only a known code with positive discount is stored as the active
code.  (Eligibility is additionally re-evaluated on every totals
computation, which never writes the slot — `calculateCartTotals` is a pure
function.) -/
theorem claim4_amended :
    (∀ (s : Store) (input : String),
      getVoucherByCode (jsToUpper (jsTrim input)) = none →
        applyVoucherBtnClick s input = s) ∧
    (∀ (s : Store) (input : String) (v : Voucher),
      getVoucherByCode (jsToUpper (jsTrim input)) = some v →
        (calculateVoucherDiscount s.cartItems (jsToUpper (jsTrim input)) ≤ 0 →
          applyVoucherBtnClick s input = s) ∧
        (0 < calculateVoucherDiscount s.cartItems (jsToUpper (jsTrim input)) →
          applyVoucherBtnClick s input =
            { s with activeVoucher := some (jsToUpper (jsTrim input)) })) := by
  constructor
  · intro s input h
    unfold applyVoucherBtnClick
    by_cases hc : jsToUpper (jsTrim input) = ""
    · simp [hc]
    · simp [hc, h]
  · intro s input v h
    have hne : jsToUpper (jsTrim input) ≠ "" := by
      intro he
      rw [he] at h
      simp [getVoucherByCode] at h
    constructor
    · intro hd
      unfold applyVoucherBtnClick
      simp [hne, h, hd]
    · intro hd
      unfold applyVoucherBtnClick
      simp [hne, h, not_le.mpr hd, setActiveVoucherCode]

/-- Witness for `claim4_amended`: applying the unknown code "NOPE" leaves a
concrete store unchanged. -/
theorem claim4_amended_witness :
    applyVoucherBtnClick claim4Store "NOPE" = claim4Store :=
  claim4_amended.1 claim4Store "NOPE" (by decide)

-- ================= C9: checkout clears only the cart ========================

/-- C9: successful checkout submission removes only the `cartItems` key — the
active voucher (and the auth keys) are untouched, while `doLogout` and the
remove-voucher control are the operations that do clear the voucher. -/
theorem claim9_checkout_frame :
    (∀ (s : Store) (form : CheckoutForm),
      (handleCheckoutForm s form).1.activeVoucher = s.activeVoucher ∧
      (handleCheckoutForm s form).1.currentUser = s.currentUser ∧
      (handleCheckoutForm s form).1.savedUsername = s.savedUsername ∧
      (handleCheckoutForm s form).1.pendingAdd = s.pendingAdd) ∧
    (∀ (s : Store) (form : CheckoutForm),
      isLoggedIn s = true → validateCheckoutForm form = true →
        handleCheckoutForm s form = ({ s with cartItems := [] }, true)) ∧
    (∀ s : Store, (doLogout s).activeVoucher = none) ∧
    (∀ s : Store, (clearActiveVoucher s).activeVoucher = none) := by
  refine ⟨?_, ?_, fun s => rfl, fun s => rfl⟩
  · intro s form
    unfold handleCheckoutForm
    split_ifs <;> simp
  · intro s form hl hv
    unfold handleCheckoutForm
    simp [hl, hv]

/-- Store for the C9 witness. -/
def claim9Store : Store :=
  { cartItems := [⟨"A", "Pen", 50, "p.png", 1⟩],
    activeVoucher := some "OFFI2025", currentUser := some "user",
    savedUsername := some "user", pendingAdd := none }

/-- A valid checkout form for the C9 witness. -/
def claim9Form : CheckoutForm :=
  { fullName := "Jo Dela Cruz", email := "jo@mail.com", phone := "0917",
    address := "1 Main St", city := "Manila", paymentMethod := some "cod" }

/-- Witness for `claim9_checkout_frame`: a concrete successful checkout
clears the cart and leaves the voucher "OFFI2025" active. -/
theorem claim9_checkout_frame_witness :
    handleCheckoutForm claim9Store claim9Form =
      ({ claim9Store with cartItems := [] }, true) :=
  claim9_checkout_frame.2.1 claim9Store claim9Form (by decide) (by decide)

end OffiStation

namespace OffiStation

/-- C2 (code evaluation): `getCartItems` returns the empty array for a
missing key (since `JSON.parse(null)` parses the coerced string "null" to a
falsy value) and returns a well-formed persisted cart; but a malformed stored
value makes `JSON.parse` throw an uncaught `SyntaxError` — modelled as
`Except.error` — instead of returning the empty sequence, contradicting the
claim that malformed data is treated as an empty cart without crashing. -/
theorem claim2_getCartItems_eval :
    getCartItems none = .ok (.jarr []) ∧
    getCartItems (some "[]") = .ok (.jarr []) ∧
    getCartItems (some "[\x7b\"id\":\"A\",\"price\":100,\"quantity\":2\x7d]") =
      .ok (.jarr [.jobj [("id", .jstr "A"), ("price", .jnum 100),
        ("quantity", .jnum 2)]]) ∧
    getCartItems (some "0") = .ok (.jarr []) ∧
    getCartItems (some "\x7b") = .error "SyntaxError: JSON.parse" ∧
    getCartItems (some "not json") = .error "SyntaxError: JSON.parse" :=
  ⟨rfl, rfl, rfl, rfl, rfl, rfl⟩

end OffiStation

namespace OffiStation

-- ================= Cart operation lemmas ====================================

theorem mem_updateQuantity (cart : List CartItem) (id : String) (q : Int) :
    ∀ j ∈ updateQuantity cart id q, j ∈ cart ∨ j.quantity = q := by
  induction cart with
  | nil => intro j hj; cases hj
  | cons i rest ih =>
    intro j hj
    unfold updateQuantity at hj
    split at hj
    · rcases List.mem_cons.mp hj with hj | hj
      · exact Or.inr (by rw [hj])
      · exact Or.inl (List.mem_cons_of_mem _ hj)
    · rcases List.mem_cons.mp hj with hj | hj
      · exact Or.inl (by rw [hj]; exact List.mem_cons_self _ _)
      · rcases ih j hj with h | h
        · exact Or.inl (List.mem_cons_of_mem _ h)
        · exact Or.inr h

theorem mem_removeItem (cart : List CartItem) (id : String) :
    ∀ j ∈ removeItem cart id, j ∈ cart := by
  induction cart with
  | nil => intro j hj; cases hj
  | cons i rest ih =>
    intro j hj
    unfold removeItem at hj
    split at hj
    · exact List.mem_cons_of_mem _ (ih j hj)
    · rcases List.mem_cons.mp hj with hj | hj
      · exact hj ▸ List.mem_cons_self _ _
      · exact List.mem_cons_of_mem _ (ih j hj)

theorem mem_bumpFirst (cart : List CartItem) (ni : CartItem) :
    ∀ j ∈ bumpFirst cart ni, j ∈ cart ∨
      ∃ i ∈ cart, j = { i with quantity := i.quantity + ni.quantity } := by
  induction cart with
  | nil => intro j hj; cases hj
  | cons i rest ih =>
    intro j hj
    unfold bumpFirst at hj
    split at hj
    · rcases List.mem_cons.mp hj with hj | hj
      · exact Or.inr ⟨i, List.mem_cons_self _ _, hj⟩
      · exact Or.inl (List.mem_cons_of_mem _ hj)
    · rcases List.mem_cons.mp hj with hj | hj
      · exact Or.inl (hj ▸ List.mem_cons_self _ _)
      · rcases ih j hj with h | ⟨i', hi', he⟩
        · exact Or.inl (List.mem_cons_of_mem _ h)
        · exact Or.inr ⟨i', List.mem_cons_of_mem _ hi', he⟩

-- ================= C5 ======================================================

/-- C5 counterexample: the delegated cart-list handler of the
markdown-embedded script, given the user-supplied quantity "0" (< 1), keeps
the item at quantity 1 instead of removing it, and given "-3" stores
quantity −3 — both refuting "a supplied quantity < 1 removes the item /
quantities stay ≥ 1". -/
theorem claim5_counterexample :
    cartQtyChangeMd [⟨"A", "Pen", 100, "p.png", 2⟩] "A" "0" =
      [⟨"A", "Pen", 100, "p.png", 1⟩] ∧
    removeItem [⟨"A", "Pen", 100, "p.png", 2⟩] "A" = [] ∧
    cartQtyChangeMd [⟨"A", "Pen", 100, "p.png", 2⟩] "A" "0" ≠
      removeItem [⟨"A", "Pen", 100, "p.png", 2⟩] "A" ∧
    cartQtyChangeMd [⟨"A", "Pen", 100, "p.png", 2⟩] "A" "-3" =
      [⟨"A", "Pen", 100, "p.png", -3⟩] := by
  refine ⟨?_, ?_, ?_, ?_⟩ <;> decide

/-- C5 (amended): the `script1.js` quantity handler removes the item for any
supplied value parsing to ≤ 0 (or not parsing at all) and otherwise stores
the parsed positive value, so carts stay at quantity ≥ 1 under the
`script1.js` operations; the delegated handler of the markdown-embedded
script instead coerces a value parsing to 0 (or `NaN`) to quantity 1 and
stores any other parsed value — negatives included — without removing the
item. -/
theorem claim5_amended :
    (∀ (cart : List CartItem) (id raw : String) (n : Int),
      jsParseInt raw = some n → 0 < n →
        Script1.cartQtyChange cart id raw = updateQuantity cart id n) ∧
    (∀ (cart : List CartItem) (id raw : String) (n : Int),
      jsParseInt raw = some n → n ≤ 0 →
        Script1.cartQtyChange cart id raw = removeItem cart id) ∧
    (∀ (cart : List CartItem) (id raw : String),
      jsParseInt raw = none →
        Script1.cartQtyChange cart id raw = removeItem cart id) ∧
    (∀ (cart : List CartItem) (id raw : String) (n : Int),
      jsParseInt raw = some n → n ≠ 0 →
        cartQtyChangeMd cart id raw = updateQuantity cart id n) ∧
    (∀ (cart : List CartItem) (id raw : String),
      (jsParseInt raw = none ∨ jsParseInt raw = some 0) →
        cartQtyChangeMd cart id raw = updateQuantity cart id 1) ∧
    (∀ (cart : List CartItem) (item : CartItem),
      (∀ i ∈ cart, 1 ≤ i.quantity) → 1 ≤ item.quantity →
        ∀ j ∈ Script1.addItemToCart cart item, 1 ≤ j.quantity) ∧
    (∀ (cart : List CartItem) (id raw : String),
      (∀ i ∈ cart, 1 ≤ i.quantity) →
        ∀ j ∈ Script1.cartQtyChange cart id raw, 1 ≤ j.quantity) ∧
    (∀ (cart : List CartItem) (id : String),
      (∀ i ∈ cart, 1 ≤ i.quantity) →
        ∀ j ∈ removeItem cart id, 1 ≤ j.quantity) := by
  have hchange : ∀ (cart : List CartItem) (id raw : String),
      (∀ i ∈ cart, 1 ≤ i.quantity) →
        ∀ j ∈ Script1.cartQtyChange cart id raw, 1 ≤ j.quantity := by
    intro cart id raw hinv j hj
    unfold Script1.cartQtyChange at hj
    rcases hp : jsParseInt raw with _ | n <;> (rw [hp] at hj; dsimp only at hj)
    · exact hinv j (mem_removeItem cart id j hj)
    · by_cases hn : n > 0
      · rw [if_pos hn] at hj
        rcases mem_updateQuantity cart id n j hj with h | h
        · exact hinv j h
        · omega
      · rw [if_neg hn] at hj
        exact hinv j (mem_removeItem cart id j hj)
  refine ⟨?_, ?_, ?_, ?_, ?_, ?_, hchange, ?_⟩
  · intro cart id raw n hp hn
    unfold Script1.cartQtyChange
    rw [hp]
    dsimp only
    rw [if_pos hn]
  · intro cart id raw n hp hn
    unfold Script1.cartQtyChange
    rw [hp]
    dsimp only
    rw [if_neg (not_lt.mpr hn)]
  · intro cart id raw hp
    unfold Script1.cartQtyChange
    rw [hp]
  · intro cart id raw n hp hn
    unfold cartQtyChangeMd
    rw [hp]
    simp [hn]
  · intro cart id raw hp
    unfold cartQtyChangeMd
    rcases hp with hp | hp <;> (rw [hp]; try simp)
  · intro cart item hinv hq j hj
    unfold Script1.addItemToCart at hj
    split at hj
    · rcases mem_bumpFirst cart item j hj with h | ⟨i, hi, he⟩
      · exact hinv j h
      · have := hinv i hi
        rw [he]
        dsimp only
        omega
    · rcases List.mem_append.mp hj with h | h
      · exact hinv j h
      · rw [List.mem_singleton.mp h]
        exact hq
  · intro cart id hinv j hj
    exact hinv j (mem_removeItem cart id j hj)

/-- Witness for `claim5_amended`: the delegated handler coerces the supplied
value "0" to a stored quantity of 1. -/
theorem claim5_amended_witness :
    cartQtyChangeMd [⟨"A", "Pen", 100, "p.png", 2⟩] "A" "0" =
      updateQuantity [⟨"A", "Pen", 100, "p.png", 2⟩] "A" 1 :=
  claim5_amended.2.2.2.2.1 [⟨"A", "Pen", 100, "p.png", 2⟩] "A" "0"
    (Or.inr (by decide))

-- ================= C10 =====================================================

/-- The fields of a cart item other than its quantity. -/
def itemKey (i : CartItem) : String × String × ℚ × String :=
  (i.id, i.name, i.price, i.image)

theorem bumpFirst_map_itemKey (cart : List CartItem) (ni : CartItem) :
    (bumpFirst cart ni).map itemKey = cart.map itemKey := by
  induction cart with
  | nil => rfl
  | cons i rest ih =>
    unfold bumpFirst
    split
    · rfl
    · simp only [List.map_cons, ih]

/-- C10: when `addItemToCart` (either variant) hits an id already in the
cart, only that entry's quantity changes — every stored id, name, price and
image is kept, and the new item's name, price and image are discarded. -/
theorem claim10_addItem_frame (cart : List CartItem) (item : CartItem)
    (h : existsId cart item.id = true) :
    (addItemToCart cart item).map itemKey = cart.map itemKey ∧
    (Script1.addItemToCart cart item).map itemKey = cart.map itemKey := by
  constructor
  · unfold addItemToCart
    rw [if_pos h]
    exact bumpFirst_map_itemKey cart item
  · unfold Script1.addItemToCart
    rw [if_pos h]
    exact bumpFirst_map_itemKey cart item

/-- Witness for `claim10_addItem_frame`: re-adding id "A" with a different
name, price, and image leaves the stored fields untouched. -/
theorem claim10_addItem_frame_witness :
    (addItemToCart [⟨"A", "Pen", 100, "p.png", 1⟩]
        ⟨"A", "Stapler", 999, "s.png", 5⟩).map itemKey =
      [(⟨"A", "Pen", 100, "p.png", 1⟩ : CartItem)].map itemKey :=
  (claim10_addItem_frame [⟨"A", "Pen", 100, "p.png", 1⟩]
    ⟨"A", "Stapler", 999, "s.png", 5⟩ (by decide)).1

end OffiStation

namespace OffiStation

-- ================= C7 ======================================================

theorem existsId_cons (i : CartItem) (rest : List CartItem) (id : String) :
    existsId (i :: rest) id = if i.id = id then true else existsId rest id :=
  rfl

theorem bumpFirst_cons_pos (i : CartItem) (rest : List CartItem)
    (ni : CartItem) (hi : i.id = ni.id) :
    bumpFirst (i :: rest) ni =
      { i with quantity := i.quantity + ni.quantity } :: rest := by
  show (if i.id = ni.id then _ else _) = _
  rw [if_pos hi]

theorem bumpFirst_cons_neg (i : CartItem) (rest : List CartItem)
    (ni : CartItem) (hi : ¬ i.id = ni.id) :
    bumpFirst (i :: rest) ni = i :: bumpFirst rest ni := by
  show (if i.id = ni.id then _ else _) = _
  rw [if_neg hi]

theorem existsId_bumpFirst (cart : List CartItem) (ni : CartItem) (id : String) :
    existsId (bumpFirst cart ni) id = existsId cart id := by
  induction cart with
  | nil => rfl
  | cons i rest ih =>
    by_cases hi : i.id = ni.id
    · rw [bumpFirst_cons_pos i rest ni hi, existsId_cons, existsId_cons]
    · rw [bumpFirst_cons_neg i rest ni hi, existsId_cons, existsId_cons, ih]

theorem existsId_append_single (cart : List CartItem) (x : CartItem)
    (id : String) (h : existsId cart id = false) :
    existsId (cart ++ [x]) id = if x.id = id then true else false := by
  induction cart with
  | nil => rfl
  | cons i rest ih =>
    rw [existsId_cons] at h
    by_cases hi : i.id = id
    · rw [if_pos hi] at h
      cases h
    · rw [if_neg hi] at h
      rw [List.cons_append, existsId_cons, if_neg hi]
      exact ih h

theorem bumpFirst_append_noMatch (cart : List CartItem) (x ni : CartItem)
    (h : existsId cart ni.id = false) (hx : x.id = ni.id) :
    bumpFirst (cart ++ [x]) ni =
      cart ++ [{ x with quantity := x.quantity + ni.quantity }] := by
  induction cart with
  | nil => simpa using bumpFirst_cons_pos x [] ni hx
  | cons i rest ih =>
    rw [existsId_cons] at h
    by_cases hi : i.id = ni.id
    · rw [if_pos hi] at h
      cases h
    · rw [if_neg hi] at h
      rw [List.cons_append, bumpFirst_cons_neg i _ ni hi, ih h, List.cons_append]

theorem bumpFirst_bumpFirst (cart : List CartItem) (i1 i2 : CartItem)
    (h : i1.id = i2.id) :
    bumpFirst (bumpFirst cart i1) i2 =
      bumpFirst cart { i1 with quantity := i1.quantity + i2.quantity } := by
  induction cart with
  | nil => rfl
  | cons i rest ih =>
    by_cases hi : i.id = i1.id
    · have hi2 : i.id = i2.id := hi.trans h
      rw [bumpFirst_cons_pos i rest i1 hi,
        bumpFirst_cons_pos _ rest i2
          (show ({ i with quantity := i.quantity + i1.quantity } : CartItem).id = i2.id from hi2),
        bumpFirst_cons_pos i rest _
          (show i.id = ({ i1 with quantity := i1.quantity + i2.quantity } : CartItem).id from hi)]
      simp [add_assoc]
    · have hi2 : ¬ i.id = i2.id := fun hc => hi (hc.trans h.symm)
      rw [bumpFirst_cons_neg i rest i1 hi,
        bumpFirst_cons_neg i _ i2 hi2,
        bumpFirst_cons_neg i rest _
          (show ¬ i.id = ({ i1 with quantity := i1.quantity + i2.quantity } : CartItem).id from hi),
        ih]

/-- C7 counterexample: adding an item with a fresh id whose image URL
contains a space does not append the item itself — the stored copy has the
image percent-encoded by `normalizeImageUrl`, so "an add with a new id
appends the item" fails as stated for the markdown-embedded variant. -/
theorem claim7_counterexample :
    addItemToCart [] ⟨"A", "Desk", 100, "img/a b.png", 1⟩ =
      [⟨"A", "Desk", 100, "img/a%20b.png", 1⟩] ∧
    addItemToCart [] ⟨"A", "Desk", 100, "img/a b.png", 1⟩ ≠
      [] ++ [⟨"A", "Desk", 100, "img/a b.png", 1⟩] := by
  constructor <;> decide

/-- C7 (amended): for both script variants, adding the same id twice is the
same as adding it once with the summed quantity; an add with a fresh id
appends the item — verbatim in `script1.js`, and with its image URL
normalized (`encodeURI(decodeURI(·))`) in the markdown-embedded script. -/
theorem claim7_add_merge :
    (∀ (cart : List CartItem) (i1 i2 : CartItem), i1.id = i2.id →
      addItemToCart (addItemToCart cart i1) i2 =
        addItemToCart cart { i1 with quantity := i1.quantity + i2.quantity }) ∧
    (∀ (cart : List CartItem) (i1 i2 : CartItem), i1.id = i2.id →
      Script1.addItemToCart (Script1.addItemToCart cart i1) i2 =
        Script1.addItemToCart cart { i1 with quantity := i1.quantity + i2.quantity }) ∧
    (∀ (cart : List CartItem) (item : CartItem), existsId cart item.id = false →
      addItemToCart cart item =
        cart ++ [{ item with image := normalizeImageUrl item.image }] ∧
      Script1.addItemToCart cart item = cart ++ [item]) := by
  refine ⟨?_, ?_, ?_⟩
  · intro cart i1 i2 h
    by_cases he : existsId cart i1.id = true
    · have he2 : existsId cart i2.id = true := h ▸ he
      have e1 : addItemToCart cart i1 = bumpFirst cart i1 := if_pos he
      have e2 : addItemToCart (bumpFirst cart i1) i2 = bumpFirst (bumpFirst cart i1) i2 :=
        if_pos (by rw [existsId_bumpFirst]; exact he2)
      have e4 : addItemToCart cart { i1 with quantity := i1.quantity + i2.quantity } =
          bumpFirst cart { i1 with quantity := i1.quantity + i2.quantity } := if_pos he
      rw [e1, e2, e4, bumpFirst_bumpFirst cart i1 i2 h]
    · have he' : existsId cart i1.id = false := Bool.eq_false_iff.mpr he
      have he2 : existsId cart i2.id = false := h ▸ he'
      have e1 : addItemToCart cart i1 =
          cart ++ [{ i1 with image := normalizeImageUrl i1.image }] :=
        if_neg (by rw [he']; exact Bool.false_ne_true)
      have hcond : existsId (cart ++ [{ i1 with image := normalizeImageUrl i1.image }]) i2.id = true := by
        rw [existsId_append_single cart _ i2.id he2]
        exact if_pos (show ({ i1 with image := normalizeImageUrl i1.image } : CartItem).id = i2.id from h)
      have e2 : addItemToCart (cart ++ [{ i1 with image := normalizeImageUrl i1.image }]) i2 =
          bumpFirst (cart ++ [{ i1 with image := normalizeImageUrl i1.image }]) i2 :=
        if_pos hcond
      have e3 : bumpFirst (cart ++ [{ i1 with image := normalizeImageUrl i1.image }]) i2 =
          cart ++ [⟨i1.id, i1.name, i1.price, normalizeImageUrl i1.image,
            i1.quantity + i2.quantity⟩] :=
        bumpFirst_append_noMatch cart _ i2 he2
          (show ({ i1 with image := normalizeImageUrl i1.image } : CartItem).id = i2.id from h)
      have e4 : addItemToCart cart { i1 with quantity := i1.quantity + i2.quantity } =
          cart ++ [⟨i1.id, i1.name, i1.price, normalizeImageUrl i1.image,
            i1.quantity + i2.quantity⟩] :=
        if_neg (show ¬ existsId cart ({ i1 with quantity := i1.quantity + i2.quantity} : CartItem).id = true by
          rw [show ({ i1 with quantity := i1.quantity + i2.quantity} : CartItem).id = i1.id from rfl, he']
          exact Bool.false_ne_true)
      rw [e1, e2, e3, e4]
  · intro cart i1 i2 h
    by_cases he : existsId cart i1.id = true
    · have he2 : existsId cart i2.id = true := h ▸ he
      have e1 : Script1.addItemToCart cart i1 = bumpFirst cart i1 := if_pos he
      have e2 : Script1.addItemToCart (bumpFirst cart i1) i2 = bumpFirst (bumpFirst cart i1) i2 :=
        if_pos (by rw [existsId_bumpFirst]; exact he2)
      have e4 : Script1.addItemToCart cart { i1 with quantity := i1.quantity + i2.quantity } =
          bumpFirst cart { i1 with quantity := i1.quantity + i2.quantity } := if_pos he
      rw [e1, e2, e4, bumpFirst_bumpFirst cart i1 i2 h]
    · have he' : existsId cart i1.id = false := Bool.eq_false_iff.mpr he
      have he2 : existsId cart i2.id = false := h ▸ he'
      have e1 : Script1.addItemToCart cart i1 = cart ++ [i1] :=
        if_neg (by rw [he']; exact Bool.false_ne_true)
      have e2 : Script1.addItemToCart (cart ++ [i1]) i2 = bumpFirst (cart ++ [i1]) i2 :=
        if_pos (by
          rw [existsId_append_single cart i1 i2.id he2]
          exact if_pos h)
      have e3 : bumpFirst (cart ++ [i1]) i2 =
          cart ++ [{ i1 with quantity := i1.quantity + i2.quantity }] :=
        bumpFirst_append_noMatch cart i1 i2 he2 h
      have e4 : Script1.addItemToCart cart { i1 with quantity := i1.quantity + i2.quantity } =
          cart ++ [{ i1 with quantity := i1.quantity + i2.quantity }] :=
        if_neg (show ¬ existsId cart ({ i1 with quantity := i1.quantity + i2.quantity} : CartItem).id = true by
          rw [show ({ i1 with quantity := i1.quantity + i2.quantity} : CartItem).id = i1.id from rfl, he']
          exact Bool.false_ne_true)
      rw [e1, e2, e3, e4]
  · intro cart item h
    constructor
    · exact if_neg (by rw [h]; exact Bool.false_ne_true)
    · exact if_neg (by rw [h]; exact Bool.false_ne_true)

/-- Witness for `claim7_add_merge`: adding id "A" twice (quantities 1 and 2)
equals one add with quantity 3. -/
theorem claim7_add_merge_witness :
    addItemToCart (addItemToCart [] ⟨"A", "Desk", 100, "d.png", 1⟩)
        ⟨"A", "Desk", 100, "d.png", 2⟩ =
      addItemToCart [] ⟨"A", "Desk", 100, "d.png", 3⟩ :=
  claim7_add_merge.1 [] ⟨"A", "Desk", 100, "d.png", 1⟩
    ⟨"A", "Desk", 100, "d.png", 2⟩ rfl

end OffiStation

namespace OffiStation

-- ================= C8: string-normalization lemmas ==========================

theorem upperChar_ws (c : Char) : isJsWs (upperChar c) = isJsWs c := by
  unfold upperChar
  by_cases h : 97 ≤ c.toNat ∧ c.toNat ≤ 122
  · rw [if_pos h]
    obtain ⟨h1, h2⟩ := h
    set k := c.toNat with hk
    interval_cases k <;> (rw [isJsWs, isJsWs, ← hk]; decide)
  · rw [if_neg h]

theorem upperChar_idem (c : Char) : upperChar (upperChar c) = upperChar c := by
  by_cases h : 97 ≤ c.toNat ∧ c.toNat ≤ 122
  · rw [show upperChar c = Char.ofNat (c.toNat - 32) from if_pos h]
    obtain ⟨h1, h2⟩ := h
    set k := c.toNat with hk
    interval_cases k <;> decide
  · rw [show upperChar c = c from if_neg h, show upperChar c = c from if_neg h]

theorem dropWhile_map_upper (l : List Char) :
    (l.map upperChar).dropWhile isJsWs = (l.dropWhile isJsWs).map upperChar := by
  induction l with
  | nil => rfl
  | cons a t ih =>
    rw [List.map_cons, List.dropWhile_cons, List.dropWhile_cons, upperChar_ws]
    by_cases ha : isJsWs a = true
    · rw [if_pos ha, if_pos ha, ih]
    · rw [if_neg ha, if_neg ha, List.map_cons]

theorem jsTrimList_map_upper (l : List Char) :
    jsTrimList (l.map upperChar) = (jsTrimList l).map upperChar := by
  unfold jsTrimList
  rw [dropWhile_map_upper, ← List.map_reverse, dropWhile_map_upper,
    ← List.map_reverse]

theorem dropWhile_head?_ws (l : List Char) (c : Char)
    (h : (l.dropWhile isJsWs).head? = some c) : isJsWs c = false := by
  induction l with
  | nil => cases h
  | cons a t ih =>
    rw [List.dropWhile_cons] at h
    by_cases ha : isJsWs a = true
    · rw [if_pos ha] at h
      exact ih h
    · rw [if_neg ha] at h
      cases h
      exact Bool.eq_false_iff.mpr ha

theorem dropWhile_eq_self_of_head? (l : List Char)
    (h : ∀ c, l.head? = some c → isJsWs c = false) :
    l.dropWhile isJsWs = l := by
  cases l with
  | nil => rfl
  | cons a t =>
    rw [List.dropWhile_cons, if_neg (by rw [h a rfl]; exact Bool.false_ne_true)]

theorem dropWhile_ws_idem (l : List Char) :
    (l.dropWhile isJsWs).dropWhile isJsWs = l.dropWhile isJsWs := by
  apply dropWhile_eq_self_of_head?
  intro c hc
  exact dropWhile_head?_ws l c hc

theorem getLast?_dropWhile_ws (l : List Char)
    (h : l.dropWhile isJsWs ≠ []) :
    (l.dropWhile isJsWs).getLast? = l.getLast? := by
  induction l with
  | nil => cases h rfl
  | cons a t ih =>
    rw [List.dropWhile_cons] at h ⊢
    by_cases ha : isJsWs a = true
    · rw [if_pos ha] at h ⊢
      have ht : t ≠ [] := by
        intro he
        rw [he] at h
        exact h rfl
      rw [ih h]
      cases t with
      | nil => cases ht rfl
      | cons b t2 => rw [List.getLast?_cons_cons]
    · rw [if_neg ha]

theorem jsTrimList_idem (l : List Char) :
    jsTrimList (jsTrimList l) = jsTrimList l := by
  unfold jsTrimList
  set u := l.dropWhile isJsWs with hu
  set v := u.reverse.dropWhile isJsWs with hv
  have step1 : v.reverse.dropWhile isJsWs = v.reverse := by
    apply dropWhile_eq_self_of_head?
    intro c hc
    rw [List.head?_reverse] at hc
    have hvne : v ≠ [] := by
      intro he
      rw [he] at hc
      cases hc
    rw [hv, getLast?_dropWhile_ws u.reverse (hv ▸ hvne), List.getLast?_reverse] at hc
    exact dropWhile_head?_ws l c (hu ▸ hc)
  rw [step1, List.reverse_reverse, hv, dropWhile_ws_idem]

theorem upperList_idem (l : List Char) :
    (l.map upperChar).map upperChar = l.map upperChar := by
  rw [List.map_map]
  have : upperChar ∘ upperChar = upperChar := funext upperChar_idem
  rw [this]

theorem jsTrim_toUpper_comm (s : String) :
    jsTrim (jsToUpper s) = jsToUpper (jsTrim s) :=
  congrArg String.mk (jsTrimList_map_upper s.data)

theorem jsTrim_idem (s : String) : jsTrim (jsTrim s) = jsTrim s :=
  congrArg String.mk (jsTrimList_idem s.data)

theorem jsToUpper_idem (s : String) : jsToUpper (jsToUpper s) = jsToUpper s :=
  congrArg String.mk (upperList_idem s.data)

/-- C8: voucher resolution is invariant under pre-normalizing the code with
uppercase-then-trim, and any code whose normal form is neither "OFFI2025"
nor "BULK10" resolves to none. -/
theorem claim8_resolution :
    (∀ code : String,
      getVoucherByCode code = getVoucherByCode (jsTrim (jsToUpper code))) ∧
    (∀ code : String, jsToUpper (jsTrim code) ≠ "OFFI2025" →
      jsToUpper (jsTrim code) ≠ "BULK10" → getVoucherByCode code = none) := by
  constructor
  · intro code
    by_cases h0 : code = ""
    · subst h0
      rfl
    · by_cases ht : jsTrim (jsToUpper code) = ""
      · have hup : jsToUpper (jsTrim code) = "" := by
          rw [← jsTrim_toUpper_comm, ht]
        unfold getVoucherByCode
        rw [if_neg h0, if_pos ht, hup]
        decide
      · have hup : jsToUpper (jsTrim (jsTrim (jsToUpper code))) =
            jsToUpper (jsTrim code) := by
          rw [jsTrim_idem, jsTrim_toUpper_comm, jsToUpper_idem]
        unfold getVoucherByCode
        rw [if_neg h0, if_neg ht, hup]
  · intro code h1 h2
    unfold getVoucherByCode
    by_cases h0 : code = ""
    · rw [if_pos h0]
    · rw [if_neg h0, if_neg h1, if_neg h2]

/-- Witness for `claim8_resolution`: a padded lowercase code resolves the
same as its normal form, and an unknown code resolves to none. -/
theorem claim8_resolution_witness :
    getVoucherByCode "  offi2025 " =
      getVoucherByCode (jsTrim (jsToUpper "  offi2025 ")) ∧
    getVoucherByCode "ZZZ" = none :=
  ⟨claim8_resolution.1 "  offi2025 ",
    claim8_resolution.2 "ZZZ" (by decide) (by decide)⟩

end OffiStation
